import Mathlib

/-!
Verification of the nextcore rate-limit gate and gateway HTTP wrapper
specification against the sources of the repository.

The rate-limit gate (`Bucket` / `BucketMetadata`) implementation is not
shipped in this snapshot; only its test-suite (`src/tests/http/test_bucket.py`)
is.  The gate is therefore modelled from the specification text (§3, §4.1 of
the design document), and the model is checked against every behaviour the
test-suite pins down.  The gateway HTTP wrappers and the export list of the
gateway module are embedded directly from
`src/nextcore/http/client/wrappers/gateway.py` and
`src/nextcore/gateway/__init__.py`.

Time is modelled by the rationals: wall-clock instants and durations are
exact, and a suspension of duration `d` advances the virtual clock by `d`.
-/

/-- Modelled from the spec: the Rate-Limit Ledger Entry
(`nextcore.http.bucket_metadata.BucketMetadata`, not under `src/`).
§3: `limit` is an optional integer ("maximum permits per window; `None` means
never observed") and `unlimited` is a boolean override.  The per-window
fields `remaining`/`reset_at` live on the gate state below, matching the
API of the test-suite, where `update` is invoked on the `Bucket`. -/
structure BucketMetadata where
  limit : Option Int := none
  unlimited : Bool := false
deriving Repr, DecidableEq

/-- Modelled from the spec: the Rate-Limit Gate (`nextcore.http.bucket.Bucket`,
not under `src/`).  §3: a Gate wraps one Ledger Entry plus a `dirty` flag;
`remaining` is an optional integer ("permits left in the current window;
`None` until first observation"), `reset_at` an optional absolute timestamp
derived from the most recent update.  `dirty` starts false. -/
structure Bucket where
  metadata : BucketMetadata
  remaining : Option Int := none
  reset_at : Option ℚ := none
  dirty : Bool := false
deriving Repr, DecidableEq

namespace Bucket

/-- Modelled from the spec: `Bucket.update(remaining, reset_after)` (§4.1):
"it overwrites `remaining` and recomputes `reset_at = now + reset_after`,
and marks the Gate dirty". -/
def update (b : Bucket) (now : ℚ) (remaining : Int) (reset_after : ℚ) : Bucket :=
  { b with
    remaining := some remaining
    reset_at := some (now + reset_after)
    dirty := true }

/-- Modelled from the spec: the suspension performed by `Bucket.acquire()`
(§4.1 steps 2–5), as the duration the caller is suspended before the grant.
Step 2: `unlimited` grants immediately.  Step 3: unknown `remaining` grants
immediately.  Step 4: positive `remaining` grants immediately.  Step 5:
`remaining <= 0` suspends "until `reset_at` has passed (relative wall-clock
wait, recomputed against current time)" — a `reset_at` already in the past
yields no suspension. -/
def acquireWait (b : Bucket) (now : ℚ) : ℚ :=
  if b.metadata.unlimited then 0
  else
    match b.remaining with
    | none => 0
    | some r =>
      if 0 < r then 0
      else
        match b.reset_at with
        | none => 0
        | some t => max 0 (t - now)

/-- Modelled from the spec: the state change performed by `Bucket.acquire()`
at grant time (§4.1 steps 2–6).  Step 2: `unlimited` skips all remaining
checks (no mutation).  Step 3: an unknown-limit grant decrements nothing.
Step 4: positive `remaining` is decremented by one.  Step 5: the suspend
mutates neither `remaining` nor `reset_at`.  Step 6: "Mark the Gate dirty on
any successful grant that occurred under a known (non-`None`) limit" — applied
on every grant, so that the §8 dirty property (an acquire completed under a
known limit marks the gate dirty) holds on all paths. -/
def acquireState (b : Bucket) : Bucket :=
  let b' :=
    if b.metadata.unlimited then b
    else
      match b.remaining with
      | none => b
      | some r => if 0 < r then { b with remaining := some (r - 1) } else b
  { b' with dirty := b'.dirty || b'.metadata.limit.isSome }

/-- Modelled from the spec: an external caller flipping the Ledger Entry
`unlimited` override (§4.1 step 2: "this flag can be set at any time by an
external caller"); the test-suite does this as `metadata.unlimited = True`. -/
def setUnlimited (b : Bucket) (v : Bool) : Bucket :=
  { b with metadata := { b.metadata with unlimited := v } }

end Bucket

/-- One operation a caller can perform against a gate, for trace semantics:
a scoped `acquire()` whose guarded body performs no update, an `acquire()`
whose guarded body calls `update r ra` (the test-suite shape
`async with bucket.acquire(): await bucket.update(...)`), a bare
`update`, or an external write of the `unlimited` flag. -/
inductive GateOp where
  | acquire : GateOp
  | acquireThenUpdate : Int → ℚ → GateOp
  | update : Int → ℚ → GateOp
  | setUnlimited : Bool → GateOp
deriving Repr, DecidableEq

/-- A gate together with the virtual wall clock. -/
structure GateSys where
  bucket : Bucket
  clock : ℚ
deriving Repr, DecidableEq

namespace GateSys

/-- Sequential small step: an `acquire` suspends for
`Bucket.acquireWait` (advancing the clock) and then applies the grant-time
state change; an `update` is instantaneous. -/
def step (s : GateSys) : GateOp → GateSys
  | .acquire =>
    { bucket := s.bucket.acquireState, clock := s.clock + s.bucket.acquireWait s.clock }
  | .acquireThenUpdate r ra =>
    let t := s.clock + s.bucket.acquireWait s.clock
    { bucket := (s.bucket.acquireState).update t r ra, clock := t }
  | .update r ra => { s with bucket := s.bucket.update s.clock r ra }
  | .setUnlimited v => { s with bucket := s.bucket.setUnlimited v }

/-- Run a list of operations sequentially. -/
def run (s : GateSys) : List GateOp → GateSys
  | [] => s
  | op :: ops => (s.step op).run ops

end GateSys

/-- The gate seeded exactly as the elapsed-time test does
(`test_consecutive` in `src/tests/http/test_bucket.py`):
`BucketMetadata(limit=1)`, a fresh `Bucket`, then `update(1, 0.1)`
at clock 0. -/
def seededGate : GateSys :=
  GateSys.step { bucket := { metadata := { limit := some 1 } }, clock := 0 }
    (.update 1 (1/10))

/-- The N sequential `acquire()`/`update(0, 0.1)` cycles of
`test_consecutive`. -/
def consecutiveCycles (n : ℕ) : List GateOp :=
  List.replicate n (.acquireThenUpdate 0 (1/10))

/-- The gate state reached by the test scenarios once `remaining` is
exhausted: limit known to be 1, `remaining = 0`, next window opening at
time `t`, gate already dirty. -/
def blockedBucket (t : ℚ) : Bucket :=
  { metadata := { limit := some 1, unlimited := false }
    remaining := some 0
    reset_at := some t
    dirty := true }

/-- The gate seeded as the concurrency test does
(`test_concurrently` in `src/tests/http/test_bucket.py`):
`BucketMetadata(limit=1)`, a fresh `Bucket`, then `update(1, R)` at clock 0. -/
def seededGateR (R : ℚ) : GateSys :=
  GateSys.step { bucket := { metadata := { limit := some 1 } }, clock := 0 }
    (.update 1 R)

lemma seededGateR_eq (R : ℚ) :
    seededGateR R =
      { bucket := { metadata := { limit := some 1, unlimited := false }
                    remaining := some 1, reset_at := some R, dirty := true }
        clock := 0 } := by
  simp [seededGateR, GateSys.step, Bucket.acquireWait, Bucket.update]

lemma seededGate_eq : seededGate = seededGateR (1/10) := rfl

/-- A granted-then-reporting cycle on a seeded gate: `remaining = 1` is
positive, so the caller is granted with no suspension, decrements to 0, and
its guarded `update 0 ra` opens the next window `ra` after the grant. -/
lemma step_seeded (R ra : ℚ) :
    GateSys.step
      { bucket := { metadata := { limit := some 1, unlimited := false }
                    remaining := some 1, reset_at := some R, dirty := true }
        clock := 0 }
      (.acquireThenUpdate 0 ra) =
      { bucket := blockedBucket ra, clock := 0 } := by
  simp [GateSys.step, Bucket.acquireWait, Bucket.acquireState, Bucket.update, blockedBucket]

/-- A granted-then-reporting cycle on a blocked gate: the caller suspends
until the window opens at `t`, is granted without touching `remaining`, and
its guarded `update 0 ra` opens the next window `ra` later. -/
lemma step_blocked (c t ra : ℚ) (h : c ≤ t) :
    GateSys.step { bucket := blockedBucket t, clock := c } (.acquireThenUpdate 0 ra) =
      { bucket := blockedBucket (t + ra), clock := t } := by
  have hmax : max 0 (t - c) = t - c := max_eq_right (by linarith)
  simp [GateSys.step, Bucket.acquireWait, Bucket.acquireState, Bucket.update, blockedBucket,
    hmax]

lemma run_append (s : GateSys) (l1 l2 : List GateOp) :
    s.run (l1 ++ l2) = (s.run l1).run l2 := by
  induction l1 generalizing s with
  | nil => rfl
  | cons op ops ih => simp [GateSys.run, ih]

lemma run_cons (s : GateSys) (op : GateOp) (ops : List GateOp) :
    s.run (op :: ops) = (s.step op).run ops := rfl

/-- Running `m` granted-then-reporting cycles from a blocked gate: each cycle
waits out the current window, so the clock advances by the reset interval
once per cycle after the first grant. -/
lemma run_replicate_blocked (R : ℚ) (hR : 0 ≤ R) (m : ℕ) :
    ∀ (c t : ℚ), c ≤ t →
      GateSys.run { bucket := blockedBucket t, clock := c }
          (List.replicate m (.acquireThenUpdate 0 R)) =
        if m = 0 then { bucket := blockedBucket t, clock := c }
        else { bucket := blockedBucket (t + m * R), clock := t + ((m : ℚ) - 1) * R } := by
  induction m with
  | zero => intro c t _; simp [GateSys.run]
  | succ n ih =>
    intro c t hct
    rw [List.replicate_succ, run_cons, step_blocked c t R hct, ih t (t + R) (by linarith)]
    rcases Nat.eq_zero_or_pos n with hn | hn
    · subst hn
      norm_num
    · have hne : n ≠ 0 := Nat.pos_iff_ne_zero.mp hn
      simp only [hne, if_false, Nat.succ_ne_zero, Nat.cast_succ]
      have hb : t + R + (n : ℚ) * R = t + ((n : ℚ) + 1) * R := by ring
      have hc : t + R + ((n : ℚ) - 1) * R = t + ((n : ℚ) + 1 - 1) * R := by ring
      rw [hb, hc]

/-- Modelled from the spec (§4.1 step 1, §5): the Gate serializes concurrent
callers in arrival order (FIFO).  `runFifo s R queue` plays the concurrency
test scenario: the tasks in `queue` all arrived at once and are admitted one
at a time in queue order; each admitted task is suspended per
`Bucket.acquireWait`, granted, and runs `update 0 R` as its guarded body.
The result pairs each task with its grant time, alongside the final state. -/
def runFifo (s : GateSys) (R : ℚ) : List ℕ → List (ℕ × ℚ) × GateSys
  | [] => ([], s)
  | i :: rest =>
    let t := s.clock + s.bucket.acquireWait s.clock
    let p := runFifo (s.step (.acquireThenUpdate 0 R)) R rest
    ((i, t) :: p.1, p.2)

/-- The grant log lists the tasks exactly in arrival order: FIFO admission. -/
lemma runFifo_fst (R : ℚ) (l : List ℕ) :
    ∀ s : GateSys, ((runFifo s R l).1).map Prod.fst = l := by
  induction l with
  | nil => intro s; rfl
  | cons i rest ih => intro s; simp [runFifo, ih]

/-- The final state of the FIFO run is the sequential run of one
granted-then-reporting cycle per queued task. -/
lemma runFifo_snd (R : ℚ) (l : List ℕ) :
    ∀ s : GateSys,
      (runFifo s R l).2 = s.run (List.replicate l.length (.acquireThenUpdate 0 R)) := by
  induction l with
  | nil => intro s; rfl
  | cons i rest ih => intro s; simp [runFifo, ih, List.replicate_succ, run_cons]

/-- From a blocked gate, FIFO grant times are strictly increasing (the
guarded sections of distinct callers never overlap) and no caller is granted
before the pending window opens. -/
lemma runFifo_times_blocked (R : ℚ) (hR : 0 < R) (l : List ℕ) :
    ∀ (c t : ℚ), c ≤ t →
      ((runFifo { bucket := blockedBucket t, clock := c } R l).1.map Prod.snd).Pairwise (· < ·)
      ∧ ∀ x ∈ (runFifo { bucket := blockedBucket t, clock := c } R l).1.map Prod.snd,
          t ≤ x := by
  induction l with
  | nil => intro c t _; simp [runFifo]
  | cons i rest ih =>
    intro c t hct
    have hmax : max 0 (t - c) = t - c := max_eq_right (by linarith)
    have hstep := step_blocked c t R hct
    have hgrant : c + Bucket.acquireWait (blockedBucket t) c = t := by
      simp [Bucket.acquireWait, blockedBucket, hmax]
    obtain ⟨ihp, ihlb⟩ := ih t (t + R) (by linarith)
    constructor
    · simp only [runFifo, hstep, hgrant, List.map_cons, List.pairwise_cons]
      refine ⟨fun x hx => ?_, ihp⟩
      have := ihlb x hx
      linarith
    · intro x hx
      simp only [runFifo, hstep, hgrant, List.map_cons, List.mem_cons] at hx
      rcases hx with hx | hx
      · linarith [hx.ge]
      · have := ihlb x hx
        linarith

lemma acquireState_reset_at (b : Bucket) : b.acquireState.reset_at = b.reset_at := by
  unfold Bucket.acquireState
  cases b.metadata.unlimited <;> cases h : b.remaining <;> simp [h]
  split <;> rfl

lemma acquireState_metadata (b : Bucket) : b.acquireState.metadata = b.metadata := by
  unfold Bucket.acquireState
  cases b.metadata.unlimited <;> cases h : b.remaining <;> simp [h]
  split <;> rfl

lemma acquireState_dirty (b : Bucket) :
    b.acquireState.dirty = (b.dirty || b.metadata.limit.isSome) := by
  unfold Bucket.acquireState
  cases b.metadata.unlimited <;> cases h : b.remaining <;> simp [h]
  split <;> rfl

lemma acquireState_remaining (b : Bucket) :
    b.acquireState.remaining = b.remaining ∨
      ∃ r, b.remaining = some r ∧ 0 < r ∧ ¬b.metadata.unlimited = true ∧
        b.acquireState.remaining = some (r - 1) := by
  unfold Bucket.acquireState
  cases hu : b.metadata.unlimited <;> cases h : b.remaining <;> simp [h]
  rename_i r
  by_cases hr : 0 < r
  · exact Or.inr ⟨hr, by simp [hr]⟩
  · exact Or.inl (by simp [hr, h])

lemma step_dirty_mono (s : GateSys) (op : GateOp) (h : s.bucket.dirty = true) :
    (s.step op).bucket.dirty = true := by
  cases op with
  | acquire => simp [GateSys.step, acquireState_dirty, h]
  | acquireThenUpdate r ra => simp [GateSys.step, Bucket.update]
  | update r ra => simp [GateSys.step, Bucket.update]
  | setUnlimited v => simpa [GateSys.step, Bucket.setUnlimited] using h

lemma run_dirty_mono (ops : List GateOp) :
    ∀ s : GateSys, s.bucket.dirty = true → (s.run ops).bucket.dirty = true := by
  induction ops with
  | nil => intro s h; exact h
  | cons op rest ih =>
    intro s h
    rw [run_cons]
    exact ih _ (step_dirty_mono s op h)

lemma run_acquire_unlimited_clock (n : ℕ) :
    ∀ (b : Bucket) (c : ℚ), b.metadata.unlimited = true →
      (GateSys.run { bucket := b, clock := c } (List.replicate n .acquire)).clock = c := by
  induction n with
  | zero => intro b c _; rfl
  | succ m ih =>
    intro b c hu
    rw [List.replicate_succ, run_cons]
    have hw : b.acquireWait c = 0 := by simp [Bucket.acquireWait, hu]
    have hm : b.acquireState.metadata.unlimited = true := by
      rw [acquireState_metadata]; exact hu
    show (GateSys.run { bucket := b.acquireState, clock := c + b.acquireWait c } _).clock = c
    rw [hw, add_zero]
    exact ih _ _ hm

/-- C1: on a Gate whose Ledger Entry has `remaining <= 0` with `unlimited`
false and the limit known, `acquire()` suspends the caller exactly until
`reset_at` has passed and then grants, and the suspension mutates neither
`remaining` nor `reset_at`; consequently the `test_consecutive` scenario —
`limit = 1`, an initial `update(1, 0.1)`, then `n` sequential
`acquire()`/`update(0, 0.1)` cycles — ends at total wall time
`0.1 * (n - 1)`. -/
theorem acquire_exhausted_suspends_until_reset (b : Bucket) (now t : ℚ) (r : Int)
    (hu : b.metadata.unlimited = false) (hl : b.metadata.limit.isSome = true)
    (hr : b.remaining = some r) (hr0 : r ≤ 0) (ht : b.reset_at = some t) :
    now + b.acquireWait now = max now t ∧
    b.acquireState.remaining = b.remaining ∧
    b.acquireState.reset_at = b.reset_at ∧
    ∀ n : ℕ, 1 ≤ n →
      (seededGate.run (consecutiveCycles n)).clock = ((n : ℚ) - 1) * (1 / 10) := by
  refine ⟨?_, ?_, acquireState_reset_at b, ?_⟩
  · simp only [Bucket.acquireWait, hu, hr, ht, not_lt.mpr hr0, if_false, Bool.false_eq_true]
    rcases le_total t now with h | h
    · rw [max_eq_left (sub_nonpos.mpr h), max_eq_left h, add_zero]
    · rw [max_eq_right (sub_nonneg.mpr h), max_eq_right h]
      ring
  · rcases acquireState_remaining b with h | ⟨r', hr', hpos, _, _⟩
    · exact h
    · rw [hr] at hr'
      cases hr'
      omega
  · intro n hn
    obtain ⟨m, rfl⟩ : ∃ m, n = m + 1 := ⟨n - 1, by omega⟩
    rw [consecutiveCycles, List.replicate_succ, run_cons, seededGate_eq, seededGateR_eq,
      step_seeded, run_replicate_blocked (1 / 10) (by norm_num) m 0 (1 / 10) (by norm_num)]
    rcases Nat.eq_zero_or_pos m with hm | hm
    · subst hm; norm_num
    · have hne : m ≠ 0 := Nat.pos_iff_ne_zero.mp hm
      simp only [hne, if_false]
      push_cast
      ring

/-- Witness for C1 at a concrete exhausted gate (`blockedBucket 1`,
`now = 0`) and `n = 3` cycles. -/
theorem acquire_exhausted_suspends_until_reset_witness :
    (0 : ℚ) + (blockedBucket 1).acquireWait 0 = max 0 1 ∧
    (blockedBucket 1).acquireState.remaining = (blockedBucket 1).remaining ∧
    (blockedBucket 1).acquireState.reset_at = (blockedBucket 1).reset_at ∧
    (seededGate.run (consecutiveCycles 3)).clock = ((3 : ℚ) - 1) * (1 / 10) := by
  have h := acquire_exhausted_suspends_until_reset (blockedBucket 1) 0 1 0
    rfl rfl rfl (by norm_num) rfl
  exact ⟨h.1, h.2.1, h.2.2.1, h.2.2.2 3 (by norm_num)⟩

lemma run_acquire_reset_at (n : ℕ) : ∀ (b : Bucket) (c : ℚ),
    (GateSys.run { bucket := b, clock := c }
        (List.replicate n .acquire)).bucket.reset_at = b.reset_at := by
  induction n with
  | zero => intro b c; rfl
  | succ m ih =>
    intro b c
    rw [List.replicate_succ, run_cons]
    show (GateSys.run { bucket := b.acquireState, clock := c + b.acquireWait c }
        (List.replicate m .acquire)).bucket.reset_at = b.reset_at
    rw [ih, acquireState_reset_at]

/-- C2: `remaining` changes only as a direct effect of an explicit `update`
or the single decrement performed inside `acquire()` at grant time when
`remaining` was positive; a grant never touches `reset_at`, flipping
`unlimited` touches neither field, and any sequence of acquisitions with no
intervening `update` leaves `reset_at` at its last-set value — `remaining`
is never replenished by the passage of time or by a suspended acquisition
waking up. -/
theorem remaining_changes_only_explicitly (b : Bucket) (now ra : ℚ) (r0 : Int) (v : Bool) :
    (b.acquireState.remaining = b.remaining ∨
      ∃ r, b.remaining = some r ∧ 0 < r ∧ b.acquireState.remaining = some (r - 1)) ∧
    b.acquireState.reset_at = b.reset_at ∧
    (b.update now r0 ra).remaining = some r0 ∧
    (b.setUnlimited v).remaining = b.remaining ∧
    (b.setUnlimited v).reset_at = b.reset_at ∧
    ∀ (n : ℕ) (c : ℚ),
      (GateSys.run { bucket := b, clock := c }
          (List.replicate n .acquire)).bucket.reset_at = b.reset_at := by
  refine ⟨?_, acquireState_reset_at b, rfl, rfl, rfl, ?_⟩
  · rcases acquireState_remaining b with h | ⟨r, hr, hpos, _, hres⟩
    · exact Or.inl h
    · exact Or.inr ⟨r, hr, hpos, hres⟩
  · intro n c
    exact run_acquire_reset_at n b c

/-- C3: a Gate whose Ledger Entry has `limit` and `remaining` both `None`
and `unlimited` false grants every acquisition immediately and never
suspends: any number of sequential `acquire()` calls leaves both the gate
state and the clock untouched. -/
theorem no_info_acquire_never_suspends (b : Bucket) (c : ℚ) (n : ℕ)
    (hl : b.metadata.limit = none) (hr : b.remaining = none)
    (hu : b.metadata.unlimited = false) :
    GateSys.run { bucket := b, clock := c } (List.replicate n .acquire)
      = { bucket := b, clock := c } := by
  have hfix : b.acquireState = b := by
    unfold Bucket.acquireState
    simp [hu, hr, hl]
    rw [← hr]
  have hw : b.acquireWait c = 0 := by simp [Bucket.acquireWait, hu, hr]
  induction n with
  | zero => rfl
  | succ m ih =>
    rw [List.replicate_succ, run_cons]
    show GateSys.run { bucket := b.acquireState, clock := c + b.acquireWait c }
        (List.replicate m .acquire) = { bucket := b, clock := c }
    rw [hfix, hw, add_zero, ih]

/-- Witness for C3: a freshly constructed no-information gate, five
sequential acquisitions, no suspension and no state change. -/
theorem no_info_acquire_never_suspends_witness :
    GateSys.run { bucket := { metadata := {} }, clock := 0 }
        (List.replicate 5 .acquire)
      = { bucket := { metadata := {} }, clock := 0 } :=
  no_info_acquire_never_suspends { metadata := {} } 0 5 rfl rfl rfl

/-- C4: with the `unlimited` override set (at any time, by an external
caller), the very next and every subsequent `acquire()` grants with no
suspension, regardless of `limit` and `remaining` — including a gate whose
`remaining` was exhausted by a prior `update`: the wait is zero and the
clock never advances over any number of acquisitions. -/
theorem unlimited_acquire_never_suspends (b : Bucket) (c now : ℚ) (n : ℕ) :
    (b.setUnlimited true).acquireWait now = 0 ∧
    (GateSys.run { bucket := b.setUnlimited true, clock := c }
        (List.replicate n .acquire)).clock = c := by
  constructor
  · simp [Bucket.setUnlimited, Bucket.acquireWait]
  · exact run_acquire_unlimited_clock n _ c rfl

/-- C6: `dirty` starts false on a freshly constructed Gate, is true after an
acquisition completed under a known (non-`None`) limit and after any
`update` (in particular one recording consumption), and once true never
reverts across any further sequence of operations. -/
theorem dirty_starts_false_and_never_reverts (m : BucketMetadata) (b : Bucket)
    (now ra : ℚ) (r : Int) (ops : List GateOp) (c : ℚ) :
    ({ metadata := m } : Bucket).dirty = false ∧
    (b.metadata.limit.isSome = true → b.acquireState.dirty = true) ∧
    (b.update now r ra).dirty = true ∧
    (b.dirty = true → (GateSys.run { bucket := b, clock := c } ops).bucket.dirty = true) := by
  refine ⟨rfl, ?_, rfl, ?_⟩
  · intro hl
    rw [acquireState_dirty, hl, Bool.or_true]
  · intro hd
    exact run_dirty_mono ops _ hd

/-- Witness for C6 at a concrete gate with a known limit: fresh gates are
clean; an acquisition, an update, and any later operations leave the gate
dirty. -/
theorem dirty_starts_false_and_never_reverts_witness :
    ({ metadata := {} } : Bucket).dirty = false ∧
    (blockedBucket 1).acquireState.dirty = true ∧
    ((blockedBucket 1).update 0 0 1).dirty = true ∧
    (GateSys.run { bucket := blockedBucket 1, clock := 0 }
        [.acquire, .update 3 1, .setUnlimited true]).bucket.dirty = true := by
  have h := dirty_starts_false_and_never_reverts {} (blockedBucket 1) 0 1 0
    [.acquire, .update 3 1, .setUnlimited true] 0
  exact ⟨h.1, h.2.1 rfl, h.2.2.1, h.2.2.2 rfl⟩

lemma runFifo_cons (s : GateSys) (R : ℚ) (i : ℕ) (rest : List ℕ) :
    runFifo s R (i :: rest) =
      ((i, s.clock + s.bucket.acquireWait s.clock)
          :: (runFifo (s.step (.acquireThenUpdate 0 R)) R rest).1,
        (runFifo (s.step (.acquireThenUpdate 0 R)) R rest).2) := rfl

/-- C5: the concurrency scenario of `test_concurrently` — a Gate seeded with
`remaining = 1` and `reset_after = R`, and `n` callers arriving at once,
each performing `acquire()` and then `update(0, R)` under the grant — is
FIFO-serialized by the Gate: callers are admitted exactly in arrival order,
their grant times are strictly increasing (so no two guarded sections ever
run simultaneously), and the whole batch completes at total wall time
`R * (n - 1)`. -/
theorem fifo_serialization_order_and_elapsed (n : ℕ) (R : ℚ) (hn : 1 ≤ n) (hR : 0 < R) :
    ((runFifo (seededGateR R) R (List.range n)).1).map Prod.fst = List.range n ∧
    (((runFifo (seededGateR R) R (List.range n)).1).map Prod.snd).Pairwise (· < ·) ∧
    (runFifo (seededGateR R) R (List.range n)).2.clock = ((n : ℚ) - 1) * R := by
  obtain ⟨m, rfl⟩ : ∃ m, n = m + 1 := ⟨n - 1, by omega⟩
  have hseed : (seededGateR R).step (.acquireThenUpdate 0 R)
      = { bucket := blockedBucket R, clock := 0 } := by
    rw [seededGateR_eq]
    exact step_seeded R R
  have hwait : (seededGateR R).clock
      + (seededGateR R).bucket.acquireWait (seededGateR R).clock = 0 := by
    rw [seededGateR_eq]
    simp [Bucket.acquireWait]
  refine ⟨runFifo_fst R _ _, ?_, ?_⟩
  · rw [List.range_succ_eq_map, runFifo_cons, hseed, hwait]
    obtain ⟨hp, hlb⟩ := runFifo_times_blocked R hR ((List.range m).map Nat.succ) 0 R
      (le_of_lt hR)
    simp only [List.map_cons, List.pairwise_cons]
    refine ⟨fun x hx => ?_, hp⟩
    have := hlb x hx
    linarith
  · rw [runFifo_snd, List.length_range, List.replicate_succ, run_cons, seededGateR_eq,
      step_seeded, run_replicate_blocked R (le_of_lt hR) m 0 R (le_of_lt hR)]
    rcases Nat.eq_zero_or_pos m with hm | hm
    · subst hm; norm_num
    · have hne : m ≠ 0 := Nat.pos_iff_ne_zero.mp hm
      simp only [hne, if_false]
      push_cast
      ring

/-- Witness for C5: three callers against a gate seeded with
`remaining = 1`, `reset_after = 1`. -/
theorem fifo_serialization_order_and_elapsed_witness :
    ((runFifo (seededGateR 1) 1 (List.range 3)).1).map Prod.fst = List.range 3 ∧
    (((runFifo (seededGateR 1) 1 (List.range 3)).1).map Prod.snd).Pairwise (· < ·) ∧
    (runFifo (seededGateR 1) 1 (List.range 3)).2.clock = ((3 : ℚ) - 1) * 1 :=
  fifo_serialization_order_and_elapsed 3 1 (by norm_num) (by norm_num)

/-- `nextcore.http.route.Route` as constructed by the gateway wrappers
(`src/nextcore/http/client/wrappers/gateway.py` lines 67 and 114): a method,
a path, and the `ignore_global` keyword, which defaults to false. The
`Route` class itself is not under `src/`; only the fields the wrappers pass
are modelled. -/
structure Route where
  method : String
  path : String
  ignore_global : Bool := false
deriving Repr, DecidableEq

/-- Modelled from the spec: `nextcore.http.authentication.BotAuthentication`
(not under `src/`).  Only the two attributes the wrapper source reads:
`str(authentication)` (the Authorization header value) and
`authentication.rate_limit_key`. -/
structure BotAuthentication where
  auth_string : String
  rate_limit_key : String
deriving Repr, DecidableEq

/-- The arguments a gateway wrapper passes to `AbstractHTTPClient._request`,
as read off `src/nextcore/http/client/wrappers/gateway.py`. -/
structure RequestCall where
  route : Route
  rate_limit_key : Option String := none
  authorization_header : Option String := none
  bucket_priority : Int := 0
  global_priority : Int := 0
  wait : Bool := true
deriving Repr, DecidableEq

/-- The request issued by `GatewayHTTPWrappers.get_gateway`
(`gateway.py` lines 67–68): `Route("GET", "/gateway", ignore_global=True)`
and `rate_limit_key=None`; no headers, priorities and `wait` left at their
defaults. -/
def get_gateway_request : RequestCall :=
  { route := { method := "GET", path := "/gateway", ignore_global := true }
    rate_limit_key := none }

/-- The request issued by `GatewayHTTPWrappers.get_gateway_bot`
(`gateway.py` lines 114–122): `Route("GET", "/gateway/bot")` with
`rate_limit_key=authentication.rate_limit_key`, the Authorization header set
to `str(authentication)`, and the priorities and `wait` forwarded. -/
def get_gateway_bot_request (authentication : BotAuthentication)
    (bucket_priority global_priority : Int) (wait : Bool) : RequestCall :=
  { route := { method := "GET", path := "/gateway/bot" }
    rate_limit_key := some authentication.rate_limit_key
    authorization_header := some authentication.auth_string
    bucket_priority := bucket_priority
    global_priority := global_priority
    wait := wait }

/-- The phases of one dispatched request, in execution order. -/
inductive DispatchStep where
  | acquireGlobal : DispatchStep
  | acquireRoute : DispatchStep
  | send : DispatchStep
  | updateRoute : DispatchStep
  | updateGlobal : DispatchStep
deriving Repr, DecidableEq

/-- Modelled from the spec: the gate protocol of the Dispatch Coordinator
(`AbstractHTTPClient._request`, not under `src/`).  §2: it "acquires the
Global Gate then the route Gate before sending, and updates both Gates from
the response"; a route constructed with `ignore_global=True` bypasses the
Global Gate, and a request carrying no rate-limit key is not attributed to
any per-credential route gate (there is no key to select one), so neither
acquisition nor update happens for it. -/
def dispatchSteps (req : RequestCall) : List DispatchStep :=
  (if req.route.ignore_global then [] else [.acquireGlobal]) ++
    (if req.rate_limit_key.isSome then [.acquireRoute] else []) ++
    [.send] ++
    (if req.rate_limit_key.isSome then [.updateRoute] else []) ++
    (if req.route.ignore_global then [] else [.updateGlobal])

/-- Modelled from the spec: the identity of the per-route gate a request is
throttled by — the route class together with the rate-limit key of the
credential, so that distinct credentials are throttled independently; a
request with no key has no per-credential route gate. -/
def routeGateKey (req : RequestCall) : Option (String × String × String) :=
  req.rate_limit_key.map fun k => (k, req.route.method, req.route.path)

/-- The caller-visible outcome of a dispatched request with respect to rate
limiting. -/
inductive RequestOutcome where
  | response : RequestOutcome
  | rateLimitedError : ℚ → RequestOutcome
deriving Repr, DecidableEq

/-- Modelled from the spec: how the Dispatch Coordinator
(`AbstractHTTPClient._request`, not under `src/`) surfaces rate-limit
exhaustion.  §7: it is "not an error — represented as a suspension, resolved
by waiting, never surfaced to the caller unless the caller explicitly opts
out of waiting, in which case it is a distinct would-block condition
carrying the wait duration"; the wrapper docstring names that condition
`RateLimitedError` and ties it to `wait=False`. -/
def requestOutcome (wait : Bool) (exhausted : Bool) (wait_duration : ℚ) : RequestOutcome :=
  if exhausted && !wait then .rateLimitedError wait_duration else .response

/-- The outcome of a `get_gateway_bot` call under a given rate-limit state,
combining the embedded wrapper request with the modelled dispatch. -/
def get_gateway_bot_outcome (authentication : BotAuthentication)
    (bucket_priority global_priority : Int) (wait exhausted : Bool)
    (wait_duration : ℚ) : RequestOutcome :=
  requestOutcome
    (get_gateway_bot_request authentication bucket_priority global_priority wait).wait
    exhausted wait_duration

/-- The public export list of the gateway module, transcribed from
`src/nextcore/gateway/__init__.py` lines 40–53. -/
def gateway_all : List String :=
  ["ShardManager", "Shard", "Decompressor", "GatewayOpcode",
   "ReconnectCheckFailedError", "DisconnectError", "InvalidIntentsError",
   "DisallowedIntentsError", "InvalidTokenError", "InvalidApiVersionError",
   "InvalidShardCountError", "UnhandledCloseCodeError"]

/-- The Connection lifecycle states (spec §4.2). -/
inductive ConnectionState where
  | disconnected : ConnectionState
  | connecting : ConnectionState
  | identifying : ConnectionState
  | resuming : ConnectionState
  | ready : ConnectionState
  | reconnecting : ConnectionState
deriving Repr, DecidableEq

/-- The failure conditions named by claim C9: the five protocol-fatal
classes (spec §4.2/§7), the unhandled-close-code condition, and the
reconnect-check failure. -/
inductive GatewayFailure where
  | invalidToken : GatewayFailure
  | disallowedIntents : GatewayFailure
  | invalidIntents : GatewayFailure
  | invalidApiVersion : GatewayFailure
  | invalidShardCount : GatewayFailure
  | unhandledCloseCode : GatewayFailure
  | reconnectCheckFailed : GatewayFailure
deriving Repr, DecidableEq

/-- All seven failure conditions. -/
def gatewayFailures : List GatewayFailure :=
  [.invalidToken, .disallowedIntents, .invalidIntents, .invalidApiVersion,
   .invalidShardCount, .unhandledCloseCode, .reconnectCheckFailed]

/-- The error type each failure condition is surfaced as, matching the
names exported in `src/nextcore/gateway/__init__.py`. -/
def GatewayFailure.exportedErrorName : GatewayFailure → String
  | .invalidToken => "InvalidTokenError"
  | .disallowedIntents => "DisallowedIntentsError"
  | .invalidIntents => "InvalidIntentsError"
  | .invalidApiVersion => "InvalidApiVersionError"
  | .invalidShardCount => "InvalidShardCountError"
  | .unhandledCloseCode => "UnhandledCloseCodeError"
  | .reconnectCheckFailed => "ReconnectCheckFailedError"

/-- Whether the failure is one of the protocol-fatal classes (spec §7:
invalid token, disallowed/invalid intents, invalid API version, invalid
shard count). -/
def GatewayFailure.isProtocolFatal : GatewayFailure → Bool
  | .invalidToken => true
  | .disallowedIntents => true
  | .invalidIntents => true
  | .invalidApiVersion => true
  | .invalidShardCount => true
  | .unhandledCloseCode => false
  | .reconnectCheckFailed => false

/-- Modelled from the spec: whether the Connection keeps attempting
automatic reconnection after the failure (`Shard`, not under `src/`).
§7: protocol-fatal conditions are "non-retryable, terminal"; an unhandled
close code is "retryable"; a reconnect-check failure "halts further
automatic retries". -/
def GatewayFailure.retriesAfter : GatewayFailure → Bool
  | .unhandledCloseCode => true
  | _ => false

/-- Modelled from the spec: the lifecycle state the Connection is left in
by the failure (`Shard`, not under `src/`).  §4.2: protocol-fatal close
codes "drive the Connection to terminal `disconnected`"; a rejected
reconnect check "moves to terminal `disconnected`"; an unrecognized close
code is "non-resumable but retryable", i.e. the Connection re-enters
`reconnecting`. -/
def GatewayFailure.stateAfter : GatewayFailure → ConnectionState
  | .unhandledCloseCode => .reconnecting
  | _ => .disconnected

/-- C7: rate-limit exhaustion is never surfaced as an error while the
caller waits (the default): `get_gateway_bot` with `wait=True` always
yields a response, with `wait=False` under exhaustion it raises the
distinct would-block `RateLimitedError` carrying the wait duration, and a
caller that is not rate limited never sees that condition whatever `wait`
is. -/
theorem rate_limited_error_only_without_wait (authentication : BotAuthentication)
    (bucket_priority global_priority : Int) (exhausted w : Bool) (d : ℚ) :
    get_gateway_bot_outcome authentication bucket_priority global_priority
        true exhausted d = .response ∧
    get_gateway_bot_outcome authentication bucket_priority global_priority
        false true d = .rateLimitedError d ∧
    requestOutcome w false d = .response := by
  refine ⟨?_, rfl, ?_⟩
  · simp [get_gateway_bot_outcome, get_gateway_bot_request, requestOutcome]
  · simp [requestOutcome]

/-- Counterexample to C8 as stated: the request issued by `get_gateway`
never acquires the Global Gate — its route is constructed with
`ignore_global=True` (`gateway.py` line 67). -/
theorem get_gateway_skips_global_gate :
    DispatchStep.acquireGlobal ∉ dispatchSteps get_gateway_request := by
  decide

/-- C8 (amended): for every request whose route does not set
`ignore_global` and which carries a rate-limit key — in particular every
`get_gateway_bot` request — the Dispatch Coordinator acquires the Global
Gate, then the route Gate, before sending, and updates both Gates from the
response; the `get_gateway` request sets `ignore_global=True` with
`rate_limit_key=None` and performs the send alone. -/
theorem dispatch_acquires_global_then_route (req : RequestCall)
    (hg : req.route.ignore_global = false) (hk : req.rate_limit_key.isSome = true) :
    dispatchSteps req
        = [.acquireGlobal, .acquireRoute, .send, .updateRoute, .updateGlobal] ∧
    (∀ (authentication : BotAuthentication) (bp gp : Int) (w : Bool),
      dispatchSteps (get_gateway_bot_request authentication bp gp w)
        = [.acquireGlobal, .acquireRoute, .send, .updateRoute, .updateGlobal]) ∧
    dispatchSteps get_gateway_request = [.send] := by
  refine ⟨?_, ?_, rfl⟩
  · simp [dispatchSteps, hg, hk]
  · intro authentication bp gp w
    rfl

/-- Witness for the amended C8 at a concrete request. -/
theorem dispatch_acquires_global_then_route_witness :
    dispatchSteps (get_gateway_bot_request ⟨"Bot t0k3n", "t0k3n"⟩ 0 0 true)
        = [.acquireGlobal, .acquireRoute, .send, .updateRoute, .updateGlobal] ∧
    (∀ (authentication : BotAuthentication) (bp gp : Int) (w : Bool),
      dispatchSteps (get_gateway_bot_request authentication bp gp w)
        = [.acquireGlobal, .acquireRoute, .send, .updateRoute, .updateGlobal]) ∧
    dispatchSteps get_gateway_request = [.send] :=
  dispatch_acquires_global_then_route
    (get_gateway_bot_request ⟨"Bot t0k3n", "t0k3n"⟩ 0 0 true) rfl rfl

/-- C9: each protocol-fatal failure class, the unhandled-close-code
condition and the reconnect-check failure is surfaced as its own distinct
error type, each exported by the gateway module, and every protocol-fatal
condition is non-retryable and leaves the Connection in terminal
`disconnected`. -/
theorem gateway_failures_distinct_exported_fatal_terminal :
    (gatewayFailures.map GatewayFailure.exportedErrorName).Nodup ∧
    (gatewayFailures.map GatewayFailure.exportedErrorName).all
        (fun s => gateway_all.contains s) = true ∧
    gatewayFailures.all
        (fun f => !f.isProtocolFatal
          || (!f.retriesAfter && f.stateAfter == ConnectionState.disconnected)) = true ∧
    GatewayFailure.reconnectCheckFailed.retriesAfter = false ∧
    GatewayFailure.reconnectCheckFailed.stateAfter = ConnectionState.disconnected := by
  refine ⟨?_, ?_, ?_, rfl, rfl⟩ <;> decide

/-- C10: `get_gateway_bot` sends its request with the Authorization header
set exactly to `str(authentication)` and the route rate-limit key equal to
`authentication.rate_limit_key`, so the per-route gate is partitioned per
credential (distinct keys select distinct gates); `get_gateway` sends with
`rate_limit_key=None` and `ignore_global=True`, bypassing both the
per-credential route gate and the Global Gate. -/
theorem gateway_bot_auth_header_and_partition
    (authentication other : BotAuthentication) (bp gp : Int) (w : Bool)
    (hne : authentication.rate_limit_key ≠ other.rate_limit_key) :
    (get_gateway_bot_request authentication bp gp w).authorization_header
        = some authentication.auth_string ∧
    (get_gateway_bot_request authentication bp gp w).rate_limit_key
        = some authentication.rate_limit_key ∧
    routeGateKey (get_gateway_bot_request authentication bp gp w)
        = some (authentication.rate_limit_key, "GET", "/gateway/bot") ∧
    routeGateKey (get_gateway_bot_request authentication bp gp w)
        ≠ routeGateKey (get_gateway_bot_request other bp gp w) ∧
    get_gateway_request.rate_limit_key = none ∧
    get_gateway_request.route.ignore_global = true ∧
    routeGateKey get_gateway_request = none ∧
    DispatchStep.acquireGlobal ∉ dispatchSteps get_gateway_request ∧
    DispatchStep.acquireRoute ∉ dispatchSteps get_gateway_request := by
  refine ⟨rfl, rfl, rfl, ?_, rfl, rfl, rfl, by decide, by decide⟩
  simp [routeGateKey, get_gateway_bot_request]
  exact hne

/-- Witness for C10 at two concrete credentials with distinct keys. -/
theorem gateway_bot_auth_header_and_partition_witness :
    (get_gateway_bot_request ⟨"Bot abc", "abc"⟩ 0 0 true).authorization_header
        = some "Bot abc" ∧
    (get_gateway_bot_request ⟨"Bot abc", "abc"⟩ 0 0 true).rate_limit_key
        = some "abc" ∧
    routeGateKey (get_gateway_bot_request ⟨"Bot abc", "abc"⟩ 0 0 true)
        = some ("abc", "GET", "/gateway/bot") ∧
    routeGateKey (get_gateway_bot_request ⟨"Bot abc", "abc"⟩ 0 0 true)
        ≠ routeGateKey (get_gateway_bot_request ⟨"Bot xyz", "xyz"⟩ 0 0 true) ∧
    get_gateway_request.rate_limit_key = none ∧
    get_gateway_request.route.ignore_global = true ∧
    routeGateKey get_gateway_request = none ∧
    DispatchStep.acquireGlobal ∉ dispatchSteps get_gateway_request ∧
    DispatchStep.acquireRoute ∉ dispatchSteps get_gateway_request :=
  gateway_bot_auth_header_and_partition ⟨"Bot abc", "abc"⟩ ⟨"Bot xyz", "xyz"⟩ 0 0 true
    (by decide)
